import Mathlib

/-!
Verification development for the market-intel-dashboard repository.

The embedding covers:
* the shared data model (packages/shared/src/types.ts),
* the mock event store generator (apps/api/src/mock/data.ts),
* the Fastify API handlers for GET /events, GET /events/:id and POST /qa
  (apps/api/src/index.ts),
* the analysis-task status machine (modelled from the spec; the task
  orchestrator itself has no implementation under the repository sources,
  only shared type declarations and frontend callers).

Modelling conventions:
* JS numbers that hold integral epoch-millisecond timestamps or counts are
  modelled as Int/Nat; fractional JS numbers are modelled as rationals.
* The pseudo-random helper seeded(s) = frac(Math.sin(s + 1) * 10000) is an
  IEEE-754 double computation; it is abstracted as a parameter
  seeded : Nat -> Rat together with the hypotheses that matter
  (its values lie in [0, 1), plus explicitly stated interval facts about
  particular seeds where a concrete store entry is examined).
* ISO timestamp strings are represented by their epoch-millisecond values,
  matching how the handlers consume them via new Date(s).getTime().
* crypto.randomUUID is abstracted as a parameter uuid : Nat -> String
  (one fresh id per generated event index), and Date.now() as now : Int.
* JS string helpers (toLowerCase, trim, includes, first-occurrence replace)
  are re-implemented structurally on the character list so that they reduce
  inside the kernel; for the ASCII/CJK strings appearing in this code base
  they agree with the JS semantics.
-/

namespace MarketIntel

/-- JS Math.floor on a rational value. -/
def jsFloor (x : ℚ) : ℤ := ⌊x⌋

/-- JS Math.round (round half towards positive infinity). -/
def jsRound (x : ℚ) : ℤ := ⌊x + 1/2⌋

/-- JS Number(x.toFixed(2)) for nonnegative x: round to 2 decimals, half up. -/
def toFixed2 (x : ℚ) : ℚ := (⌊x * 100 + 1/2⌋ : ℚ) / 100

/-- JS String.prototype.toLowerCase, character by character (ASCII letters). -/
def strToLower (s : String) : String := ⟨s.data.map Char.toLower⟩

/-- JS String.prototype.trim: drop whitespace from both ends. -/
def strTrim (s : String) : String :=
  ⟨((s.data.dropWhile Char.isWhitespace).reverse.dropWhile Char.isWhitespace).reverse⟩

/-- Helper for substring search on character lists. -/
def listHasSub (h n : List Char) : Bool :=
  n.isPrefixOf h ||
    match h with
    | [] => false
    | _ :: t => listHasSub t n

/-- JS String.prototype.includes: substring containment. -/
def strIncludes (h n : String) : Bool := listHasSub h.data n.data

/-- Helper for first-occurrence replacement on character lists. -/
def listReplaceFirst (s pat rep : List Char) : List Char :=
  match s with
  | [] => []
  | c :: t =>
    if pat.isPrefixOf (c :: t) then rep ++ (c :: t).drop pat.length
    else c :: listReplaceFirst t pat rep

/-- JS String.prototype.replace with a string pattern: replaces only the first
occurrence of the pattern. -/
def strReplace (s pat rep : String) : String :=
  ⟨listReplaceFirst s.data pat.data rep.data⟩

/-- Helper for jsSetDedup: walk the list keeping elements not seen before. -/
def jsSetDedupGo [BEq α] (seen : List α) : List α → List α
  | [] => []
  | a :: t => if seen.contains a then jsSetDedupGo seen t else a :: jsSetDedupGo (a :: seen) t

/-- JS Array.from(new Set(xs)): deduplicate, keeping first occurrences in
insertion order. (The JS Set compares strings by value and the template
records by reference; the generator only ever inserts values drawn from a
fixed pool of pairwise distinct elements, so structural equality coincides
with the JS comparison.) -/
def jsSetDedup [BEq α] (l : List α) : List α := jsSetDedupGo [] l

/-! ## Data model (packages/shared/src/types.ts) -/

/-- Union type EventSourceType from the shared types. -/
inductive EventSourceType
  | news
  | filing
  | earnings
  | research
  | macro_data
deriving DecidableEq, Repr

/-- Union type EventType from the shared types. -/
inductive EventType
  | earnings
  | guidance
  | mna
  | buyback
  | rate_decision
  | macro_release
  | regulation
  | risk
deriving DecidableEq, Repr

/-- Union type Market from the shared types. -/
inductive Market
  | US
  | HK
  | FX
  | RATES
  | METALS
deriving DecidableEq, Repr

/-- Union type Sector from the shared types. -/
inductive Sector
  | Tech
  | Industrials
deriving DecidableEq, Repr

/-- Union type DataOrigin from the shared types. -/
inductive DataOrigin
  | live
  | seed
deriving DecidableEq, Repr

/-- Stance union ('positive' | 'negative' | 'neutral') used by Event. -/
inductive Stance
  | positive
  | negative
  | neutral
deriving DecidableEq, Repr

/-- String value of a Market (the TS union is a string union). -/
def marketStr : Market → String
  | .US => "US"
  | .HK => "HK"
  | .FX => "FX"
  | .RATES => "RATES"
  | .METALS => "METALS"

/-- String value of a Sector. -/
def sectorStr : Sector → String
  | .Tech => "Tech"
  | .Industrials => "Industrials"

/-- String value of an EventType. -/
def eventTypeStr : EventType → String
  | .earnings => "earnings"
  | .guidance => "guidance"
  | .mna => "mna"
  | .buyback => "buyback"
  | .rate_decision => "rate_decision"
  | .macro_release => "macro_release"
  | .regulation => "regulation"
  | .risk => "risk"

/-- String value of a Stance. -/
def stanceStr : Stance → String
  | .positive => "positive"
  | .negative => "negative"
  | .neutral => "neutral"

/-- EventNumber record from the shared types. Optional TS fields are Options. -/
structure EventNumber where
  name : String
  value : ℚ
  unit : Option String
  period : Option String
  yoy : Option ℚ
  qoq : Option ℚ
  source_quote_id : Option String
deriving DecidableEq, Repr

/-- EventEvidence record from the shared types; published_at is the
epoch-millisecond value of the ISO timestamp string. -/
structure EventEvidence where
  quote_id : String
  source_url : String
  title : String
  published_at : ℤ
  excerpt : String
deriving DecidableEq, Repr

/-- Event record from the shared types. event_time and ingest_time are the
epoch-millisecond values of the ISO strings. The shared types declare
data_origin : DataOrigin as a required field, but the runtime objects built by
the mock generator carry no data_origin property at all, so the field is
modelled as an Option with none standing for an absent property (claim C3 is
about exactly this mismatch). -/
structure Event where
  event_id : String
  event_time : ℤ
  ingest_time : ℤ
  source_type : EventSourceType
  publisher : String
  headline : String
  summary : String
  event_type : EventType
  markets : List Market
  tickers : List String
  instruments : List String
  sectors : List Sector
  numbers : List EventNumber
  stance : Stance
  impact : ℤ
  confidence : ℚ
  impact_chain : List String
  evidence : List EventEvidence
  related_event_ids : Option (List String)
  data_origin : Option DataOrigin
deriving DecidableEq, Repr

/-- QAResponse record from the shared types. -/
structure QAResponse where
  answer : String
  evidence : List EventEvidence
deriving DecidableEq, Repr

/-! ## Mock event store generator (apps/api/src/mock/data.ts)

The generator is parametric in seeded (the Math.sin based pseudo-random
helper), now (Date.now() at module load) and uuid (crypto.randomUUID per
event index). Template placeholder braces inside string literals are written
with their escape codes. -/

/-- Publisher name pool. -/
def publishers : List String :=
  ["Bloomberg Wire", "Market Pulse", "Rates Desk", "Alpha Ledger",
   "Pacific Markets", "Crown Research", "Summit Macro", "Atlas Insight",
   "Harbor Analytics", "Northbridge Daily"]

/-- Headline template pool. -/
def headlineTemplates : List String :=
  ["Policy signals reshape \x7bmarket\x7d positioning",
   "\x7bticker\x7d posts resilient demand in core segments",
   "\x7bticker\x7d guides \x7bdirection\x7d on margin outlook",
   "\x7bmarket\x7d volatility rises as liquidity thins",
   "Deal chatter lifts \x7bsector\x7d breadth",
   "Macro print surprises on \x7bmacro\x7d",
   "Central bank delivers \x7bstance\x7d tone",
   "\x7bticker\x7d announces capital return update",
   "\x7bsector\x7d supply chain normalizes faster than expected",
   "Risk sentiment softens after \x7bmacro\x7d shock"]

/-- Summary template pool. -/
def summaryTemplates : List String :=
  ["Traders recalibrated exposure after the latest release, with follow-through expected across the next two sessions.",
   "The update shifts consensus ranges, lifting dispersion across peer names and reinforcing a more selective stance.",
   "Early price action suggests positioning was light, leaving room for a follow-on move if confirmation data arrives.",
   "Liquidity pockets remain thin, and intraday swings are likely to persist into the next macro catalyst.",
   "Analysts flagged a better mix shift, but highlighted cost discipline as the main determinant of earnings power.",
   "The announcement underscores a cautious tone in guidance while keeping optionality for upside revisions."]

/-- Macro tag pool. -/
def macroTags : List String := ["inflation", "jobs", "growth", "liquidity", "policy"]

/-- Event type pool. -/
def eventTypes : List EventType :=
  [.earnings, .guidance, .mna, .buyback, .rate_decision, .macro_release, .regulation, .risk]

/-- Source type pool. -/
def sourceTypes : List EventSourceType := [.news, .filing, .earnings, .research, .macro_data]

/-- Market pool. -/
def markets : List Market := [.US, .HK, .FX, .RATES, .METALS]

/-- Sector pool. -/
def sectors : List Sector := [.Tech, .Industrials]

/-- Ticker pool. -/
def tickers : List String :=
  ["AAPL", "MSFT", "NVDA", "0700.HK", "9988.HK", "TSLA", "AMZN", "META"]

/-- Instrument pool. -/
def instruments : List String := ["NASDAQ", "SPX", "DXY", "US10Y", "XAUUSD", "USDJPY"]

/-- Record shape of numberTemplates entries: an EventNumber without value plus
a valueRange pair. -/
structure NumberTemplate where
  name : String
  unit : String
  period : String
  valueRange : ℚ × ℚ
  yoy : ℚ
deriving DecidableEq, Repr, BEq

/-- Metric template pool. -/
def numberTemplates : List NumberTemplate :=
  [⟨"EPS", "USD", "Q", (1.2, 2.4), 0.12⟩,
   ⟨"Revenue", "B USD", "Q", (12, 38), 0.08⟩,
   ⟨"CPI", "%", "M", (2.4, 3.6), 0.3⟩,
   ⟨"Payrolls", "K", "M", (120, 260), 0.05⟩,
   ⟨"PMI", "pts", "M", (47, 54), -0.02⟩]

/-- Impact chain narrative pool. -/
def impactChains : List String :=
  ["Policy tone shifts rate path expectations",
   "Rates repricing tightens financial conditions",
   "Equity multiples compress across cyclicals",
   "FX volatility spikes in high-beta pairs",
   "Commodities demand recalibrates on growth fears",
   "Credit spreads widen on risk repricing"]

/-- Evidence title pool. -/
def evidenceTitles : List String :=
  ["Morning Briefing Note", "Macro Snapshot", "Earnings Call Highlights",
   "Regulatory Update Memo", "Rates Strategy Recap"]

/-- pick(items, seed): index the pool at floor(seeded(seed) * items.length).
A JS out-of-range access yields undefined; it is modelled with the explicit
default dflt, which is never reached while seeded values stay in [0, 1). -/
def pick (seeded : ℕ → ℚ) (items : List α) (dflt : α) (s : ℕ) : α :=
  items.getD (jsFloor (seeded s * items.length)).toNat dflt

/-- pickMany(items, seed, min, max): draw count elements with replacement,
then deduplicate via Array.from(new Set(...)). -/
def pickMany [BEq α] (seeded : ℕ → ℚ) (items : List α) (dflt : α)
    (s mn mx : ℕ) : List α :=
  let count : ℤ := max (mn : ℤ) (jsFloor (seeded (s + 1) * ((mx - mn + 1 : ℕ) : ℚ)) + mn)
  let selected := (List.range count.toNat).map
    (fun i => items.getD (jsFloor (seeded (s + i + 2) * items.length)).toNat dflt)
  jsSetDedup selected

/-- Fallback template used to model an undefined JS access in makeNumbers
(never reached while seeded values stay in [0, 1)). -/
def defaultNumberTemplate : NumberTemplate := ⟨"", "", "", (0, 0), 0⟩

/-- makeNumbers(seed): pick one or two metric templates and instantiate their
values. The source spreads entry.qoq, which is undefined on every template. -/
def makeNumbers (seeded : ℕ → ℚ) (s : ℕ) : List EventNumber :=
  let entries := pickMany seeded numberTemplates defaultNumberTemplate s 1 2
  entries.enum.map (fun p =>
    { name := p.2.name
      value := toFixed2 (p.2.valueRange.1 + seeded (s + p.1 + 4) * (p.2.valueRange.2 - p.2.valueRange.1))
      unit := some p.2.unit
      period := some p.2.period
      yoy := some p.2.yoy
      qoq := none
      source_quote_id := some ("Q" ++ toString s ++ "-" ++ toString p.1) })

/-- makeEvidence(seed): build one or two evidence entries. -/
def makeEvidence (seeded : ℕ → ℚ) (now : ℤ) (s : ℕ) : List EventEvidence :=
  let count : ℤ := max 1 (jsFloor (seeded (s + 9) * 2) + 1)
  (List.range count.toNat).map (fun i =>
    { quote_id := "E-" ++ toString s ++ "-" ++ toString i
      source_url := "https://example.com/source/" ++ toString s ++ "/" ++ toString i
      title := pick seeded evidenceTitles "" (s + i + 3)
      published_at := now - (s : ℤ) * 3600000
      excerpt := "Key takeaway: the data and guidance reinforce near-term expectations, keeping volatility elevated." })

/-- makeHeadline(seed): fill the placeholders of a headline template. JS
String.prototype.replace substitutes only the first occurrence; each template
contains each placeholder at most once. -/
def makeHeadline (seeded : ℕ → ℚ) (s : ℕ) : String :=
  let template := pick seeded headlineTemplates "" s
  strReplace
    (strReplace
      (strReplace
        (strReplace
          (strReplace
            (strReplace template "\x7bmarket\x7d" (marketStr (pick seeded markets Market.US (s + 2))))
            "\x7bticker\x7d" (pick seeded tickers "" (s + 3)))
          "\x7bdirection\x7d" (if seeded (s + 4) > 0.5 then "上修" else "下修"))
        "\x7bsector\x7d" (sectorStr (pick seeded sectors Sector.Tech (s + 5))))
      "\x7bmacro\x7d" (pick seeded macroTags "" (s + 6)))
    "\x7bstance\x7d" (if seeded (s + 7) > 0.6 then "偏鹰" else "偏鸽")

/-- Body of the arrow function mapped over Array.from(\x7blength: 80\x7d) to
build EVENTS: the canonical Event for a given index. Note that the returned
object literal has no data_origin property (modelled as none). -/
def mkEvent (seeded : ℕ → ℚ) (now : ℤ) (uuid : ℕ → String) (index : ℕ) : Event :=
  let baseTime : ℤ := now - (index : ℤ) * (6 * 60 * 60 * 1000)
  let eventType := pick seeded eventTypes EventType.earnings (index + 1)
  let sourceType := pick seeded sourceTypes EventSourceType.news (index + 3)
  let marketList := pickMany seeded markets Market.US (index + 5) 1 3
  let tickerList := pickMany seeded tickers "" (index + 7) 1 2
  let instrumentList := pickMany seeded instruments "" (index + 9) 1 2
  let impact := jsRound (35 + seeded (index + 11) * 60)
  let confidence := toFixed2 (0.45 + seeded (index + 13) * 0.5)
  { event_id := uuid index
    event_time := baseTime
    ingest_time := baseTime + 20 * 60 * 1000
    source_type := sourceType
    publisher := pick seeded publishers "" (index + 12)
    headline := makeHeadline seeded (index + 10)
    summary := pick seeded summaryTemplates "" (index + 14)
    event_type := eventType
    markets := marketList
    tickers := tickerList
    instruments := instrumentList
    sectors := pickMany seeded sectors Sector.Tech (index + 15) 1 2
    numbers := makeNumbers seeded (index + 16)
    stance := if seeded (index + 17) > 0.64 then Stance.positive
              else if seeded (index + 18) > 0.5 then Stance.neutral
              else Stance.negative
    impact := impact
    confidence := confidence
    impact_chain := pickMany seeded impactChains "" (index + 19) 3 5
    evidence := makeEvidence seeded now (index + 20)
    related_event_ids := if seeded (index + 21) > 0.7 then some [] else none
    data_origin := none }

/-- EVENTS: the mock Evidence Store, 80 generated events. -/
def EVENTS (seeded : ℕ → ℚ) (now : ℤ) (uuid : ℕ → String) : List Event :=
  (List.range 80).map (mkEvent seeded now uuid)

/-! ## API handlers (apps/api/src/index.ts) -/

/-- Query parameters of GET /events. Date parameters are represented by their
parsed epoch-millisecond value (none models an absent parameter or one whose
Date parse is NaN, which is falsy exactly like an absent one); numeric
parameters by their parsed rational value (none models absent or empty,
which are falsy before Number conversion); page and pageSize are restricted
to integral numeric values. The source field names from and to are rendered
as fromTime and toTime, the names filterEvents converts them to. -/
structure EventsQuery where
  fromTime : Option ℤ := none
  toTime : Option ℤ := none
  market : Option String := none
  sector : Option String := none
  type : Option String := none
  stance : Option String := none
  minImpact : Option ℚ := none
  minConfidence : Option ℚ := none
  q : Option String := none
  page : Option ℤ := none
  pageSize : Option ℤ := none
deriving Repr

/-- Haystack for the keyword filter: headline, summary, publisher, joined
tickers and joined instruments, joined with spaces. -/
def haystack (e : Event) : String :=
  String.intercalate " "
    [e.headline, e.summary, e.publisher,
     String.intercalate " " e.tickers, String.intercalate " " e.instruments]

/-- Predicate of the EVENTS.filter callback inside filterEvents. Each guard
mirrors a JS early return of the form if (x && cond) return false, including
the truthiness of x: a numeric filter value of 0 and an empty filter string
are falsy and disable their filter. -/
def eventPasses (query : EventsQuery) (keyword : Option String) (e : Event) : Bool :=
  (match query.fromTime with
   | none => true
   | some t => !(decide (t ≠ 0) && decide (e.event_time < t))) &&
  (match query.toTime with
   | none => true
   | some t => !(decide (t ≠ 0) && decide (e.event_time > t))) &&
  (match query.market with
   | none => true
   | some m => !(decide (m ≠ "") && !((e.markets.map marketStr).contains m))) &&
  (match query.sector with
   | none => true
   | some sc => !(decide (sc ≠ "") && !((e.sectors.map sectorStr).contains sc))) &&
  (match query.type with
   | none => true
   | some ty => !(decide (ty ≠ "") && decide (eventTypeStr e.event_type ≠ ty))) &&
  (match query.stance with
   | none => true
   | some st => !(decide (st ≠ "") && decide (stanceStr e.stance ≠ st))) &&
  (match query.minImpact with
   | none => true
   | some m => !(decide (m ≠ 0) && decide ((e.impact : ℚ) < m))) &&
  (match query.minConfidence with
   | none => true
   | some c => !(decide (c ≠ 0) && decide (e.confidence < c))) &&
  (match keyword with
   | none => true
   | some kw => !(decide (kw ≠ "") && !(strIncludes (strToLower (haystack e)) kw)))

/-- Descending event_time ordering used by the sort comparator, which returns
new Date(b.event_time).getTime() - new Date(a.event_time).getTime(). -/
def timeDesc (a b : Event) : Prop := b.event_time ≤ a.event_time

instance : DecidableRel timeDesc := fun a b => Int.decLe b.event_time a.event_time

instance : IsTotal Event timeDesc := ⟨fun a b => le_total b.event_time a.event_time⟩

instance : IsTrans Event timeDesc := ⟨fun _ _ _ hab hbc => le_trans hbc hab⟩

/-- filterEvents: filter the store by the query, then sort by event_time
descending. JS Array.prototype.sort is a stable comparison sort on a fresh
array produced by filter; it is modelled by the stable insertionSort. -/
def filterEvents (events : List Event) (query : EventsQuery) : List Event :=
  let keyword := query.q.map (fun s => strTrim (strToLower s))
  (events.filter (eventPasses query keyword)).insertionSort timeDesc

/-- PaginatedEvents response shape from the shared types. -/
structure PaginatedEvents where
  items : List Event
  page : ℤ
  pageSize : ℤ
  total : ℕ
deriving Repr

/-- Body of the GET /events handler: filter, clamp pagination, slice. -/
def eventsHandler (events : List Event) (query : EventsQuery) : PaginatedEvents :=
  let filtered := filterEvents events query
  let currentPage : ℤ := max 1 (query.page.getD 1)
  let size : ℤ := max 5 (min 50 (query.pageSize.getD 20))
  let start := (currentPage - 1) * size
  { items := (filtered.drop start.toNat).take size.toNat
    page := currentPage
    pageSize := size
    total := filtered.length }

/-- The server state visible to the handlers: the module-level EVENTS
collection. Handlers never assign to it; each stateful route returns the
response together with the (unchanged) state. -/
structure ServerState where
  events : List Event

/-- GET /events as a state transformer. -/
def eventsRoute (st : ServerState) (query : EventsQuery) : PaginatedEvents × ServerState :=
  (eventsHandler st.events query, st)

/-- Error reply produced via reply.code(...) plus a message object. -/
structure ErrorReply where
  status : ℕ
  message : String
deriving DecidableEq, Repr

/-- Body of the GET /events/:id handler. -/
def eventByIdHandler (events : List Event) (id : String) : Except ErrorReply Event :=
  match events.find? (fun item => item.event_id == id) with
  | some event => .ok event
  | none => .error ⟨404, "Event not found"⟩

/-- GET /events/:id as a state transformer. -/
def eventByIdRoute (st : ServerState) (id : String) : Except ErrorReply Event × ServerState :=
  (eventByIdHandler st.events id, st)

/-- Branch structure of the POST /qa handler: starting from the
rate_decision pick and the default answer, each keyword branch reassigns
picked (with ?? fallback to the previous pick) and answer. The argument is
the already-lowercased question. -/
def qaSelect (events : List Event) (question : String) : Option Event × String :=
  let picked := events.find? (fun event => event.event_type == EventType.rate_decision)
  let answer := "Policy pacing still hinges on inflation and growth, with near-term focus on the next policy update."
  if strIncludes question "gold" || strIncludes question "xau" then
    ((events.find? (fun event => event.markets.contains Market.METALS)).orElse (fun _ => picked),
     "Precious metals remain driven by real yields and risk hedging demand, with near-term moves tied to policy expectations.")
  else if strIncludes question "earnings" || strIncludes question "aapl" then
    ((events.find? (fun event => event.event_type == EventType.earnings)).orElse (fun _ => picked),
     "Earnings momentum is still led by product and services mix, with market focus on margin durability.")
  else if strIncludes question "fx" || strIncludes question "dxy" then
    ((events.find? (fun event => event.markets.contains Market.FX)).orElse (fun _ => picked),
     "The dollar index is tugged by policy divergence and risk demand, with the short-term path leaning on macro confirmation.")
  else if strIncludes question "risk" || strIncludes question "regulation" then
    ((events.find? (fun event => event.event_type == EventType.risk)).orElse (fun _ => picked),
     "Policy and regulatory events meaningfully affect risk appetite; track how quickly the impact chain spreads.")
  else (picked, answer)

/-- Body of the POST /qa handler. The request body is modelled by its
optional question string (body?.question?.toLowerCase() ?? ''). The final
evidence access picked?.evidence ?? EVENTS[0].evidence would throw on an
empty store; that impossible-by-construction crash is modelled by none. -/
def qaHandler (events : List Event) (body : Option String) : Option QAResponse :=
  let question := strToLower (body.getD "")
  let sel := qaSelect events question
  match sel.1 with
  | some event => some ⟨sel.2, event.evidence⟩
  | none => events.head?.map (fun e0 => ⟨sel.2, e0.evidence⟩)

/-- POST /qa as a state transformer. -/
def qaRoute (st : ServerState) (body : Option String) : Option QAResponse × ServerState :=
  (qaHandler st.events body, st)

/-! ## Analysis task status machine -/

/-- Modelled from the spec: the AnalysisTask status union
pending | running | completed | failed. The task orchestrator is not part of
the repository sources (only shared type declarations and frontend callers
exist), so the state machine is taken from the spec text. -/
inductive TaskStatus
  | pending
  | running
  | completed
  | failed
deriving DecidableEq, Repr, Fintype

/-- Modelled from the spec: the allowed status transitions. The main path is
pending to running, then running to completed or failed (terminal); the spec
additionally lets cancellation move a pending task directly to failed
(cancelled-before-run, the [pending, failed] sequence of the task state
monotonicity property). -/
def taskStep : TaskStatus → TaskStatus → Bool
  | .pending, .running => true
  | .running, .completed => true
  | .running, .failed => true
  | .pending, .failed => true
  | _, _ => false

/-- Modelled from the spec: position of a status along the forward order
pending, running, then terminal. -/
def statusRank : TaskStatus → ℕ
  | .pending => 0
  | .running => 1
  | .completed => 2
  | .failed => 2

/-! ## Shared helper definitions for witnesses -/

/-- Concrete stand-in for the seeded parameter: constantly 0, a value in
[0, 1). -/
def rZero : ℕ → ℚ := fun _ => 0

/-- Concrete stand-in for the uuid parameter. -/
def uZero : ℕ → String := fun _ => ""

/-- rZero takes values in [0, 1). -/
theorem rZero_mem_unit : ∀ s, 0 ≤ rZero s ∧ rZero s < 1 :=
  fun _ => ⟨le_rfl, by norm_num [rZero]⟩

/-- A minimal concrete Event used to exercise handlers in witnesses. -/
def sampleEvent : Event :=
  { event_id := "e-1", event_time := 5, ingest_time := 6, source_type := .news,
    publisher := "pub", headline := "head", summary := "sum",
    event_type := .earnings, markets := [.US], tickers := ["AAPL"],
    instruments := ["SPX"], sectors := [.Tech], numbers := [],
    stance := .neutral, impact := 40, confidence := 0,
    impact_chain := ["a", "b", "c"],
    evidence := [⟨"q1", "u1", "t1", 0, "x1"⟩],
    related_event_ids := none, data_origin := none }

/-! ## Theorems -/

/-- C5: for every call to the GET /events handler, with any combination of
filter and pagination parameters, the EVENTS collection held in the server
state is unchanged after the call: the handler is a read-only projection
(filter copies the store into a fresh array and sort reorders only that
copy). -/
theorem eventsRoute_preserves_store (st : ServerState) (query : EventsQuery) :
    (eventsRoute st query).2 = st := rfl

/-- C6: the rule-based POST /qa handler is deterministic: running it twice in
sequence against the same event store yields the identical answer text and
the identical evidence list (and the store is unchanged in between). -/
theorem qaRoute_deterministic (st : ServerState) (body : Option String) :
    (qaRoute st body).1.map QAResponse.answer
      = (qaRoute (qaRoute st body).2 body).1.map QAResponse.answer ∧
    (qaRoute st body).1.map QAResponse.evidence
      = (qaRoute (qaRoute st body).2 body).1.map QAResponse.evidence :=
  ⟨rfl, rfl⟩

/-- C9: for every GET /events request with numeric page and pageSize
parameters, the response pageSize is clamped to [5, 50], the response page is
at least 1, at most pageSize items are returned, and total equals the number
of events matching the filters. -/
theorem eventsHandler_pagination (events : List Event) (query : EventsQuery) :
    5 ≤ (eventsHandler events query).pageSize ∧
    (eventsHandler events query).pageSize ≤ 50 ∧
    1 ≤ (eventsHandler events query).page ∧
    ((eventsHandler events query).items.length : ℤ) ≤ (eventsHandler events query).pageSize ∧
    (eventsHandler events query).total = (filterEvents events query).length := by
  have h5 : (5:ℤ) ≤ max 5 (min 50 (query.pageSize.getD 20)) := le_max_left _ _
  refine ⟨h5, ?_, le_max_left _ _, ?_, rfl⟩
  · exact max_le (by norm_num) (min_le_left _ _)
  · have hlen : (eventsHandler events query).items.length
        ≤ (max 5 (min 50 (query.pageSize.getD 20))).toNat := by
      simp [eventsHandler]
    calc ((eventsHandler events query).items.length : ℤ)
        ≤ ((max 5 (min 50 (query.pageSize.getD 20))).toNat : ℤ) := by exact_mod_cast hlen
      _ = max 5 (min 50 (query.pageSize.getD 20)) :=
          Int.toNat_of_nonneg (le_trans (by norm_num) h5)

/-- C3: every event built by the mock generator carries no data_origin
property (modelled as none), although the shared Event type and the spec
require data_origin to be live or seed. -/
theorem EVENTS_data_origin_absent (seeded : ℕ → ℚ) (now : ℤ) (uuid : ℕ → String) :
    ∀ e ∈ EVENTS seeded now uuid, e.data_origin = none := by
  intro e he
  simp only [EVENTS, List.mem_map] at he
  obtain ⟨i, -, rfl⟩ := he
  rfl

/-- Witness for C3: the first generated event of a concrete store has no
data_origin. -/
theorem EVENTS_data_origin_absent_witness :
    mkEvent rZero 0 uZero 0 ∈ EVENTS rZero 0 uZero ∧
    (mkEvent rZero 0 uZero 0).data_origin = none :=
  ⟨List.mem_map_of_mem _ (List.mem_range.mpr (by norm_num)),
   EVENTS_data_origin_absent rZero 0 uZero _
     (List.mem_map_of_mem _ (List.mem_range.mpr (by norm_num)))⟩

/-- C7 counterexample: the status machine modelled from the spec contains the
cancelled-before-run transition pending to failed, which does skip the
running state (its rank does not increase by exactly one), so the literal
reading that no transition ever skips a state is false. -/
theorem taskStep_skip_counterexample :
    taskStep TaskStatus.pending TaskStatus.failed = true ∧
    statusRank TaskStatus.failed ≠ statusRank TaskStatus.pending + 1 := by decide

/-- C7 amended: every transition of the status machine strictly increases the
status rank (in particular pending is never re-entered and running never
follows a terminal state), terminal states have no outgoing transitions, and
along any transition chain the ranks are strictly increasing pairwise, so an
observed status sequence never revisits an earlier state. -/
theorem taskStep_monotone :
    (∀ s t, taskStep s t = true → statusRank s < statusRank t) ∧
    (∀ t, taskStep TaskStatus.completed t = false) ∧
    (∀ t, taskStep TaskStatus.failed t = false) ∧
    (∀ l : List TaskStatus, List.Chain' (fun a b => taskStep a b = true) l →
      List.Pairwise (fun a b => statusRank a < statusRank b) l) := by
  have hstep : ∀ s t, taskStep s t = true → statusRank s < statusRank t := by decide
  refine ⟨hstep, by decide, by decide, ?_⟩
  intro l hl
  haveI : IsTrans TaskStatus (fun a b => statusRank a < statusRank b) :=
    ⟨fun _ _ _ => Nat.lt_trans⟩
  exact List.chain'_iff_pairwise.mp (hl.imp fun a b hab => hstep a b hab)

/-- Witness for C7 amended: the pending to running transition strictly
increases the rank. -/
theorem taskStep_monotone_witness :
    taskStep TaskStatus.pending TaskStatus.running = true ∧
    statusRank TaskStatus.pending < statusRank TaskStatus.running :=
  ⟨by decide, taskStep_monotone.1 TaskStatus.pending TaskStatus.running (by decide)⟩

/-- C4: for every event in the generated store, impact is an integer (the
field is integral by construction, Math.round of the seeded expression) in
[0, 100] and confidence lies in [0, 1], provided the seeded pseudo-random
values lie in [0, 1) as frac always does. -/
theorem EVENTS_impact_confidence_bounds (seeded : ℕ → ℚ) (now : ℤ) (uuid : ℕ → String)
    (h : ∀ s, 0 ≤ seeded s ∧ seeded s < 1) :
    ∀ e ∈ EVENTS seeded now uuid,
      0 ≤ e.impact ∧ e.impact ≤ 100 ∧ 0 ≤ e.confidence ∧ e.confidence ≤ 1 := by
  intro e he
  simp only [EVENTS, List.mem_map] at he
  obtain ⟨i, -, rfl⟩ := he
  obtain ⟨h0, h1⟩ := h (i + 11)
  obtain ⟨g0, g1⟩ := h (i + 13)
  have himp : (mkEvent seeded now uuid i).impact = jsRound (35 + seeded (i + 11) * 60) := rfl
  have hconf : (mkEvent seeded now uuid i).confidence
      = toFixed2 (0.45 + seeded (i + 13) * 0.5) := rfl
  rw [himp, hconf]
  unfold jsRound toFixed2
  have himp0 : (0:ℤ) ≤ ⌊35 + seeded (i + 11) * 60 + 1/2⌋ := by
    apply Int.le_floor.mpr
    push_cast
    linarith
  have himp1 : ⌊35 + seeded (i + 11) * 60 + 1/2⌋ < 101 := by
    apply Int.floor_lt.mpr
    push_cast
    linarith
  have hc0 : (0:ℤ) ≤ ⌊(0.45 + seeded (i + 13) * 0.5) * 100 + 1/2⌋ := by
    apply Int.le_floor.mpr
    push_cast
    linarith
  have hc1 : ⌊(0.45 + seeded (i + 13) * 0.5) * 100 + 1/2⌋ < 101 := by
    apply Int.floor_lt.mpr
    push_cast
    linarith
  refine ⟨himp0, by omega, ?_, ?_⟩
  · apply div_nonneg _ (by norm_num)
    exact_mod_cast hc0
  · rw [div_le_one (by norm_num : (0:ℚ) < 100)]
    have : (⌊(0.45 + seeded (i + 13) * 0.5) * 100 + 1/2⌋ : ℚ) ≤ 100 := by
      exact_mod_cast Int.lt_add_one_iff.mp hc1
    linarith

/-- Witness for C4: bounds hold at the first event of a concrete store. -/
theorem EVENTS_impact_confidence_bounds_witness :
    (∀ s, 0 ≤ rZero s ∧ rZero s < 1) ∧
    (0 ≤ (mkEvent rZero 0 uZero 0).impact ∧ (mkEvent rZero 0 uZero 0).impact ≤ 100 ∧
     0 ≤ (mkEvent rZero 0 uZero 0).confidence ∧ (mkEvent rZero 0 uZero 0).confidence ≤ 1) :=
  ⟨rZero_mem_unit,
   EVENTS_impact_confidence_bounds rZero 0 uZero rZero_mem_unit _
     (List.mem_map_of_mem _ (List.mem_range.mpr (by norm_num)))⟩

/-- C10: the GET /events/:id handler returns the stored event whose event_id
equals the requested id when one exists, otherwise a 404 reply with message
Event not found, and the store is unchanged in both cases. -/
theorem eventByIdRoute_spec (st : ServerState) (id : String) :
    ((∃ e ∈ st.events, e.event_id = id) →
      ∃ e, (eventByIdRoute st id).1 = Except.ok e ∧ e ∈ st.events ∧ e.event_id = id) ∧
    ((¬ ∃ e ∈ st.events, e.event_id = id) →
      (eventByIdRoute st id).1 = Except.error ⟨404, "Event not found"⟩) ∧
    (eventByIdRoute st id).2 = st := by
  refine ⟨?_, ?_, rfl⟩
  · rintro ⟨e, he, hid⟩
    cases hf : st.events.find? (fun item => item.event_id == id) with
    | none =>
      exfalso
      have := List.find?_eq_none.mp hf e he
      simp [hid] at this
    | some ev =>
      refine ⟨ev, ?_, List.mem_of_find?_eq_some hf, ?_⟩
      · simp [eventByIdRoute, eventByIdHandler, hf]
      · have := List.find?_some hf
        simpa using this
  · intro hnone
    cases hf : st.events.find? (fun item => item.event_id == id) with
    | none => simp [eventByIdRoute, eventByIdHandler, hf]
    | some ev =>
      exfalso
      exact hnone ⟨ev, List.mem_of_find?_eq_some hf, by simpa using List.find?_some hf⟩

/-- Witness for C10: on a one-event store the handler returns that event for
its id. -/
theorem eventByIdRoute_spec_witness :
    (∃ e ∈ (ServerState.mk [sampleEvent]).events, e.event_id = "e-1") ∧
    (∃ e, (eventByIdRoute (ServerState.mk [sampleEvent]) "e-1").1 = Except.ok e ∧
      e ∈ (ServerState.mk [sampleEvent]).events ∧ e.event_id = "e-1") :=
  ⟨⟨sampleEvent, List.mem_singleton_self _, rfl⟩,
   (eventByIdRoute_spec (ServerState.mk [sampleEvent]) "e-1").1
     ⟨sampleEvent, List.mem_singleton_self _, rfl⟩⟩

/-- Every generated event has a nonempty evidence list: makeEvidence builds
Math.max(1, ...) entries, so at least one, for any seeded values. -/
theorem EVENTS_evidence_ne_nil (seeded : ℕ → ℚ) (now : ℤ) (uuid : ℕ → String) :
    ∀ e ∈ EVENTS seeded now uuid, e.evidence ≠ [] := by
  intro e he
  simp only [EVENTS, List.mem_map] at he
  obtain ⟨i, -, rfl⟩ := he
  show makeEvidence seeded now (i + 20) ≠ []
  unfold makeEvidence
  intro hnil
  rw [List.map_eq_nil_iff, List.range_eq_nil, Int.toNat_eq_zero] at hnil
  have h1 : (1:ℤ) ≤ max 1 (jsFloor (seeded (i + 20 + 9) * 2) + 1) := le_max_left _ _
  omega

/-- An element produced by an orElse of two find? calls over the same list is
a member of the list. -/
theorem find?_orElse_mem (events : List Event) (p q : Event → Bool) (e : Event)
    (h : ((events.find? p).orElse (fun _ => events.find? q)) = some e) : e ∈ events := by
  cases hf : events.find? p with
  | some a =>
    rw [hf] at h
    have ha : a = e := by
      have : some a = some e := h
      exact Option.some.inj this
    exact ha ▸ List.mem_of_find?_eq_some hf
  | none =>
    rw [hf] at h
    have : events.find? q = some e := h
    exact List.mem_of_find?_eq_some this

/-- The event selected by the qa branch logic, when present, comes from the
store. -/
theorem qaSelect_fst_mem (events : List Event) (question : String) (e : Event)
    (h : (qaSelect events question).1 = some e) : e ∈ events := by
  unfold qaSelect at h
  split_ifs at h <;>
    first
      | exact find?_orElse_mem events _ _ e h
      | exact List.mem_of_find?_eq_some h

/-- The POST /qa handler on a nonempty store whose events all carry evidence
always answers, with a nonempty evidence list drawn from stored events. -/
theorem qaHandler_grounded_any (events : List Event) (hne : events ≠ [])
    (hev : ∀ e ∈ events, e.evidence ≠ []) (body : Option String) :
    ∃ resp, qaHandler events body = some resp ∧ resp.evidence ≠ [] ∧
      ∀ item ∈ resp.evidence, ∃ e ∈ events, item ∈ e.evidence := by
  unfold qaHandler
  cases hsel : (qaSelect events (strToLower (body.getD ""))).1 with
  | some ev =>
    have hmem : ev ∈ events := qaSelect_fst_mem events _ ev hsel
    exact ⟨⟨(qaSelect events (strToLower (body.getD ""))).2, ev.evidence⟩,
      by simp [hsel], hev ev hmem, fun item hi => ⟨ev, hmem, hi⟩⟩
  | none =>
    cases events with
    | nil => exact absurd rfl hne
    | cons a t =>
      refine ⟨⟨(qaSelect (a :: t) (strToLower (body.getD ""))).2, a.evidence⟩,
        by simp [hsel], hev a (List.mem_cons_self a t),
        fun item hi => ⟨a, List.mem_cons_self a t, hi⟩⟩

/-- C2: every response of the POST /qa handler over the generated store
contains a nonempty evidence list, and every entry of it is drawn from the
evidence of an event in the store. -/
theorem qaHandler_response_grounded (seeded : ℕ → ℚ) (now : ℤ) (uuid : ℕ → String)
    (body : Option String) :
    ∃ resp, qaHandler (EVENTS seeded now uuid) body = some resp ∧
      resp.evidence ≠ [] ∧
      ∀ item ∈ resp.evidence, ∃ e ∈ EVENTS seeded now uuid, item ∈ e.evidence := by
  apply qaHandler_grounded_any
  · simp [EVENTS]
  · exact EVENTS_evidence_ne_nil seeded now uuid

/-- Natural reading of filter satisfaction for C8: every provided filter is
honoured, with no truthiness exception. -/
def withinFilters (query : EventsQuery) (e : Event) : Prop :=
  (∀ t, query.fromTime = some t → t ≤ e.event_time) ∧
  (∀ t, query.toTime = some t → e.event_time ≤ t) ∧
  (∀ m, query.market = some m → m ∈ e.markets.map marketStr) ∧
  (∀ sc, query.sector = some sc → sc ∈ e.sectors.map sectorStr) ∧
  (∀ ty, query.type = some ty → eventTypeStr e.event_type = ty) ∧
  (∀ stv, query.stance = some stv → stanceStr e.stance = stv) ∧
  (∀ m, query.minImpact = some m → m ≤ (e.impact : ℚ)) ∧
  (∀ c, query.minConfidence = some c → c ≤ e.confidence) ∧
  (∀ kw, query.q = some kw →
    strIncludes (strToLower (haystack e)) (strTrim (strToLower kw)) = true)

/-- Claim C8 as stated: over the generated store (seeded values in [0, 1),
positive Date.now()), every event returned by the GET /events handler
satisfies all provided filters, and the items are ordered by event_time
descending. -/
def c8Statement : Prop :=
  ∀ (seeded : ℕ → ℚ) (now : ℤ) (uuid : ℕ → String),
    (∀ s, 0 ≤ seeded s ∧ seeded s < 1) → 0 < now →
    ∀ query : EventsQuery,
      (∀ e ∈ (eventsHandler (EVENTS seeded now uuid) query).items, withinFilters query e) ∧
      List.Pairwise timeDesc (eventsHandler (EVENTS seeded now uuid) query).items

/-- The event_time of a generated event. -/
theorem mkEvent_event_time (seeded : ℕ → ℚ) (now : ℤ) (uuid : ℕ → String) (i : ℕ) :
    (mkEvent seeded now uuid i).event_time = now - (i : ℤ) * (6 * 60 * 60 * 1000) := rfl

/-- The generated store is already sorted by event_time descending. -/
theorem EVENTS_pairwise_timeDesc (seeded : ℕ → ℚ) (now : ℤ) (uuid : ℕ → String) :
    List.Pairwise timeDesc (EVENTS seeded now uuid) := by
  unfold EVENTS
  rw [List.pairwise_map]
  refine List.Pairwise.imp ?_ (List.pairwise_lt_range 80)
  intro i j hij
  show timeDesc (mkEvent seeded now uuid i) (mkEvent seeded now uuid j)
  unfold timeDesc
  rw [mkEvent_event_time, mkEvent_event_time]
  have hij' : (i : ℤ) ≤ (j : ℤ) := by exact_mod_cast hij.le
  have := mul_le_mul_of_nonneg_right hij' (by norm_num : (0:ℤ) ≤ 6 * 60 * 60 * 1000)
  linarith

/-- The query exhibiting the counterexample for C8: a to parameter that
parses to epoch 0 (the string 1970-01-01T00:00:00Z), which is falsy in JS,
so the upper time bound is silently dropped. -/
def q0 : EventsQuery := { toTime := some 0 }

/-- With q0 every event passes the filter. -/
theorem eventPasses_q0 (e : Event) : eventPasses q0 (q0.q.map (fun s => strTrim (strToLower s))) e = true := rfl

/-- C8 counterexample: the claim as stated is false. With the filter
to = epoch 0 the handler keeps every event (JS truthiness drops the bound),
and the most recent stored event has event_time = Date.now() which is
positive, violating the claimed upper time bound. -/
theorem c8_counterexample : ¬ c8Statement := by
  intro h
  have hN : (0:ℤ) < 1706400000000 := by norm_num
  obtain ⟨hall, -⟩ := h rZero 1706400000000 uZero rZero_mem_unit hN q0
  have hfiltered : filterEvents (EVENTS rZero 1706400000000 uZero) q0
      = EVENTS rZero 1706400000000 uZero := by
    unfold filterEvents
    dsimp only
    rw [List.filter_eq_self.mpr (fun a _ => eventPasses_q0 a)]
    exact List.Sorted.insertionSort_eq (EVENTS_pairwise_timeDesc rZero 1706400000000 uZero)
  have hmem : mkEvent rZero 1706400000000 uZero 0
      ∈ (eventsHandler (EVENTS rZero 1706400000000 uZero) q0).items := by
    show mkEvent rZero 1706400000000 uZero 0
      ∈ ((filterEvents (EVENTS rZero 1706400000000 uZero) q0).drop
          (((max 1 ((q0.page).getD 1) - 1) * max 5 (min 50 ((q0.pageSize).getD 20))).toNat)).take
          ((max 5 (min 50 ((q0.pageSize).getD 20))).toNat)
    rw [hfiltered]
    norm_num [q0]
    show mkEvent rZero 1706400000000 uZero 0
      ∈ ((EVENTS rZero 1706400000000 uZero).drop 0).take 20
    rw [List.drop_zero]
    unfold EVENTS
    rw [List.range_succ_eq_map, List.map_cons, List.take_succ_cons]
    exact List.mem_cons_self _ _
  have hto := (hall _ hmem).2.1 0 rfl
  rw [mkEvent_event_time] at hto
  norm_num at hto

/-- Decomposition of a successful eventPasses check into the individual
guarded filter facts (each filter is honoured whenever its value is truthy,
that is nonzero or a nonempty string). -/
theorem eventPasses_spec (query : EventsQuery) (kw : Option String) (e : Event)
    (hp : eventPasses query kw e = true) :
    (∀ t, query.fromTime = some t → t ≠ 0 → t ≤ e.event_time) ∧
    (∀ t, query.toTime = some t → t ≠ 0 → e.event_time ≤ t) ∧
    (∀ m, query.market = some m → m ≠ "" → m ∈ e.markets.map marketStr) ∧
    (∀ sc, query.sector = some sc → sc ≠ "" → sc ∈ e.sectors.map sectorStr) ∧
    (∀ ty, query.type = some ty → ty ≠ "" → eventTypeStr e.event_type = ty) ∧
    (∀ stv, query.stance = some stv → stv ≠ "" → stanceStr e.stance = stv) ∧
    (∀ m, query.minImpact = some m → m ≠ 0 → m ≤ (e.impact : ℚ)) ∧
    (∀ c, query.minConfidence = some c → c ≠ 0 → c ≤ e.confidence) ∧
    (∀ kwv, kw = some kwv → kwv ≠ "" →
      strIncludes (strToLower (haystack e)) kwv = true) := by
  unfold eventPasses at hp
  simp only [Bool.and_eq_true] at hp
  obtain ⟨⟨⟨⟨⟨⟨⟨⟨h1, h2⟩, h3⟩, h4⟩, h5⟩, h6⟩, h7⟩, h8⟩, h9⟩ := hp
  refine ⟨?_, ?_, ?_, ?_, ?_, ?_, ?_, ?_, ?_⟩
  · intro t heq hne; rw [heq] at h1; simp [hne] at h1; omega
  · intro t heq hne; rw [heq] at h2; simp [hne] at h2; omega
  · intro m heq hne; rw [heq] at h3; simpa [hne] using h3
  · intro sc heq hne; rw [heq] at h4; simpa [hne] using h4
  · intro ty heq hne; rw [heq] at h5; simpa [hne] using h5
  · intro stv heq hne; rw [heq] at h6; simpa [hne] using h6
  · intro m heq hne; rw [heq] at h7; simp [hne] at h7; linarith
  · intro c heq hne; rw [heq] at h8; simp [hne] at h8; linarith
  · intro kwv heq hne; rw [heq] at h9; simpa [hne] using h9

/-- C8 amended: every event returned by the GET /events handler satisfies
every provided filter whose value is truthy in the JS sense (a from, to,
minImpact or minConfidence that parses to 0 and an empty market, sector,
type, stance or trimmed keyword string silently disable their filter), and
the returned items are ordered by event_time descending. -/
theorem eventsHandler_filter_semantics (events : List Event) (query : EventsQuery) :
    (∀ e ∈ (eventsHandler events query).items,
      (∀ t, query.fromTime = some t → t ≠ 0 → t ≤ e.event_time) ∧
      (∀ t, query.toTime = some t → t ≠ 0 → e.event_time ≤ t) ∧
      (∀ m, query.market = some m → m ≠ "" → m ∈ e.markets.map marketStr) ∧
      (∀ sc, query.sector = some sc → sc ≠ "" → sc ∈ e.sectors.map sectorStr) ∧
      (∀ ty, query.type = some ty → ty ≠ "" → eventTypeStr e.event_type = ty) ∧
      (∀ stv, query.stance = some stv → stv ≠ "" → stanceStr e.stance = stv) ∧
      (∀ m, query.minImpact = some m → m ≠ 0 → m ≤ (e.impact : ℚ)) ∧
      (∀ c, query.minConfidence = some c → c ≠ 0 → c ≤ e.confidence) ∧
      (∀ kws, query.q = some kws → strTrim (strToLower kws) ≠ "" →
        strIncludes (strToLower (haystack e)) (strTrim (strToLower kws)) = true)) ∧
    List.Pairwise timeDesc (eventsHandler events query).items := by
  have hsub : (eventsHandler events query).items.Sublist (filterEvents events query) := by
    dsimp only [eventsHandler]
    exact (List.take_sublist _ _).trans (List.drop_sublist _ _)
  constructor
  · intro e he
    have hf : e ∈ events.filter
        (eventPasses query (query.q.map (fun s => strTrim (strToLower s)))) := by
      have hmemf : e ∈ filterEvents events query := hsub.subset he
      unfold filterEvents at hmemf
      dsimp only at hmemf
      exact (List.mem_insertionSort timeDesc).mp hmemf
    have hp := (List.mem_filter.mp hf).2
    have hs := eventPasses_spec query _ e hp
    refine ⟨hs.1, hs.2.1, hs.2.2.1, hs.2.2.2.1, hs.2.2.2.2.1, hs.2.2.2.2.2.1,
      hs.2.2.2.2.2.2.1, hs.2.2.2.2.2.2.2.1, ?_⟩
    intro kws heq hne
    exact hs.2.2.2.2.2.2.2.2 (strTrim (strToLower kws)) (by rw [heq]; rfl) hne
  · have hsorted : List.Pairwise timeDesc (filterEvents events query) := by
      unfold filterEvents
      dsimp only
      exact List.sorted_insertionSort timeDesc _
    exact hsorted.sublist hsub

/-- The empty GET /events query: no filters, default pagination. -/
def emptyQuery : EventsQuery := {}

/-- With the empty query every event passes the filter. -/
theorem eventPasses_empty (e : Event) :
    eventPasses emptyQuery (emptyQuery.q.map (fun s => strTrim (strToLower s))) e = true := rfl

/-- With the empty query and a one-event store the handler returns that
event. -/
theorem eventsHandler_singleton_items :
    (eventsHandler [sampleEvent] emptyQuery).items = [sampleEvent] := by
  dsimp only [eventsHandler]
  have hfe : filterEvents [sampleEvent] emptyQuery = [sampleEvent] := by
    unfold filterEvents
    dsimp only
    rw [List.filter_eq_self.mpr (fun a _ => eventPasses_empty a)]
    exact List.Sorted.insertionSort_eq (List.pairwise_singleton _ _)
  rw [hfe]
  norm_num [emptyQuery]

/-- Witness for C8 amended: the single returned event of a concrete call
satisfies the guarded from filter fact. -/
theorem eventsHandler_filter_semantics_witness :
    sampleEvent ∈ (eventsHandler [sampleEvent] emptyQuery).items ∧
    (∀ t, emptyQuery.fromTime = some t → t ≠ 0 → t ≤ sampleEvent.event_time) :=
  ⟨by rw [eventsHandler_singleton_items]; exact List.mem_singleton_self _,
   ((eventsHandler_filter_semantics [sampleEvent] emptyQuery).1 sampleEvent
     (by rw [eventsHandler_singleton_items]; exact List.mem_singleton_self _)).1⟩

/-- C1: pickMany samples with replacement and only then deduplicates, so the
lower bound min = 3 of impact_chain is not honoured. For event index 28 the
chain seed is 28 + 19 = 47; the IEEE double values of the generator are
seeded(48) = 0.4734... (so the draw count is 4) and seeded(49) = 0.2514...,
seeded(50) = 0.2917..., seeded(51) = 0.2759..., seeded(52) = 0.2515... (so
all four draws pick pool index 1), leaving a single-entry impact_chain. The
interval hypotheses state exactly these facts about the pseudo-random
values; all lie comfortably inside their intervals, far away from any
floating-point rounding boundary. -/
theorem EVENTS_impact_chain_underflow (seeded : ℕ → ℚ) (now : ℤ) (uuid : ℕ → String)
    (h48 : 1/3 ≤ seeded 48 ∧ seeded 48 < 2/3)
    (h49 : 1/6 ≤ seeded 49 ∧ seeded 49 < 1/3)
    (h50 : 1/6 ≤ seeded 50 ∧ seeded 50 < 1/3)
    (h51 : 1/6 ≤ seeded 51 ∧ seeded 51 < 1/3)
    (h52 : 1/6 ≤ seeded 52 ∧ seeded 52 < 1/3) :
    ∃ e ∈ EVENTS seeded now uuid, e.impact_chain.length = 1 := by
  refine ⟨mkEvent seeded now uuid 28,
    List.mem_map_of_mem _ (List.mem_range.mpr (by norm_num)), ?_⟩
  have hchain : (mkEvent seeded now uuid 28).impact_chain
      = pickMany seeded impactChains "" 47 3 5 := rfl
  have f48 : jsFloor (seeded 48 * 3) = 1 := by
    unfold jsFloor
    rw [Int.floor_eq_iff]
    constructor
    · push_cast; linarith [h48.1]
    · push_cast; linarith [h48.2]
  have f49 : jsFloor (seeded 49 * 6) = 1 := by
    unfold jsFloor
    rw [Int.floor_eq_iff]
    exact ⟨by push_cast; linarith [h49.1], by push_cast; linarith [h49.2]⟩
  have f50 : jsFloor (seeded 50 * 6) = 1 := by
    unfold jsFloor
    rw [Int.floor_eq_iff]
    exact ⟨by push_cast; linarith [h50.1], by push_cast; linarith [h50.2]⟩
  have f51 : jsFloor (seeded 51 * 6) = 1 := by
    unfold jsFloor
    rw [Int.floor_eq_iff]
    exact ⟨by push_cast; linarith [h51.1], by push_cast; linarith [h51.2]⟩
  have f52 : jsFloor (seeded 52 * 6) = 1 := by
    unfold jsFloor
    rw [Int.floor_eq_iff]
    exact ⟨by push_cast; linarith [h52.1], by push_cast; linarith [h52.2]⟩
  rw [hchain]
  unfold pickMany
  dsimp only
  norm_num [impactChains]
  rw [f48]
  norm_num
  rw [show Int.toNat 4 = 4 from rfl]
  simp only [List.range_succ, List.range_zero, List.map_append, List.map_cons,
    List.map_nil, List.nil_append, List.cons_append]
  norm_num
  rw [f49, f50, f51, f52]
  decide

/-- Concrete pseudo-random values satisfying the interval facts of the C1
underflow theorem. -/
def rC1 : ℕ → ℚ := fun s => if s = 48 then 1/2 else 1/4

/-- Witness for C1: a concrete store in which event 28 ends up with a
single-entry impact_chain. -/
theorem EVENTS_impact_chain_underflow_witness :
    ((1:ℚ)/3 ≤ rC1 48 ∧ rC1 48 < 2/3) ∧
    ((1:ℚ)/6 ≤ rC1 49 ∧ rC1 49 < 1/3) ∧
    ((1:ℚ)/6 ≤ rC1 50 ∧ rC1 50 < 1/3) ∧
    ((1:ℚ)/6 ≤ rC1 51 ∧ rC1 51 < 1/3) ∧
    ((1:ℚ)/6 ≤ rC1 52 ∧ rC1 52 < 1/3) ∧
    ∃ e ∈ EVENTS rC1 0 uZero, e.impact_chain.length = 1 :=
  ⟨by norm_num [rC1], by norm_num [rC1], by norm_num [rC1], by norm_num [rC1],
   by norm_num [rC1],
   EVENTS_impact_chain_underflow rC1 0 uZero (by norm_num [rC1])
     (by norm_num [rC1]) (by norm_num [rC1]) (by norm_num [rC1]) (by norm_num [rC1])⟩

/-- Witness for C2: a concrete instantiation of the grounding theorem. -/
theorem qaHandler_response_grounded_witness :
    ∃ resp, qaHandler (EVENTS rZero 0 uZero) (some "gold") = some resp ∧
      resp.evidence ≠ [] ∧
      ∀ item ∈ resp.evidence, ∃ e ∈ EVENTS rZero 0 uZero, item ∈ e.evidence :=
  qaHandler_response_grounded rZero 0 uZero (some "gold")
